import Mathlib

/-!
Verification of the configuration-resolution, cluster-registry and
request-dispatch layer of the opensearch-mcp-server repository.

The definitions below are a shallow embedding of the TypeScript source:

* `createConfigFromEnv`, `legacyClusters`, `mkEnvCluster` embed
  `createConfigFromEnv` of src/types/config.ts (the multi-cluster version);
* `validateConfig` embeds `validateConfig` of src/types/config.ts;
* `getClient`, `initializeOpenSearch`, `handleCallTool`, `handlerMethod`,
  `requiredFields` embed the `OpenSearchMCPServer` class of src/index.ts;
* `clientMethods` lists the methods defined on `OpenSearchClient` in
  src/opensearch/client.ts;
* `applyIndexPrefix` embeds `OpenSearchClient.applyIndexPrefix`.

External effects (the zod library, `JSON.parse`, network pings, backend
responses) are modelled as explicit inputs (oracles), and the I/O a call
performs is recorded as an explicit `Effect` trace.
-/

/-- Truthiness of an optional JavaScript string value: `undefined` and the
empty string are falsy, every other string is truthy.  Used to embed the
`x || y` and `if (x)` idioms of the source. -/
def jsTruthy : Option String → Bool
  | none => false
  | some s => s != ""

/-- Embeds the JavaScript `a || b` expression on string-valued environment
variables: the first truthy operand wins. -/
def jsOr (a b : Option String) : Option String :=
  if jsTruthy a then a else b

/-- Candidate cluster value as assembled by `createConfigFromEnv`
(src/types/config.ts).  Only the fields the verified claims inspect are
carried; the remaining fields of the source object (nodes, ssl, timeouts)
do not affect any claim and are elided. -/
structure RawCluster where
  node : Option String := none
  username : Option String := none
  password : Option String := none
  indexPrefix : Option String := none
deriving DecidableEq

/-- The environment variables read by `createConfigFromEnv`
(src/types/config.ts).  `clustersJson` models the OPENSEARCH_CLUSTERS
variable together with the outcome of the external `JSON.parse` call on it:
`none` means the variable is unset, `some none` means it is set but
`JSON.parse` throws (malformed), and `some (some m)` means it parses to the
name-keyed map `m`. -/
structure Env where
  clusterName : Option String := none
  url : Option String := none
  node : Option String := none
  username : Option String := none
  password : Option String := none
  indexPrefix : Option String := none
  clustersJson : Option (Option (List (String × RawCluster))) := none
deriving DecidableEq

/-- The single-cluster entry object built inline by `createConfigFromEnv`
in both its named branch and its legacy branch (the two branches build the
identical object): node is OPENSEARCH_URL || OPENSEARCH_NODE, and the
remaining fields are copied from their environment variables. -/
def mkEnvCluster (env : Env) : RawCluster :=
  { node := jsOr env.url env.node
    username := env.username
    password := env.password
    indexPrefix := env.indexPrefix }

/-- Result type of `createConfigFromEnv`: a name-keyed list of candidate
cluster values, in declaration order (`Partial<OpenSearchConfig>`). -/
structure PartialConfig where
  clusters : List (String × RawCluster) := []
deriving DecidableEq

/-- The trailing part of `createConfigFromEnv` (src/types/config.ts lines
141-167): if OPENSEARCH_URL or OPENSEARCH_NODE is truthy, a one-entry map
keyed by the fixed name "default" is produced, otherwise an empty map. -/
def legacyClusters (env : Env) : PartialConfig :=
  if jsTruthy env.url || jsTruthy env.node then
    { clusters := [("default", mkEnvCluster env)] }
  else
    { clusters := [] }

/-- Embeds `createConfigFromEnv` (src/types/config.ts lines 97-167).
Branch order as in the source: (1) OPENSEARCH_CLUSTER_NAME truthy together
with a truthy OPENSEARCH_URL or OPENSEARCH_NODE yields a one-entry map
keyed by the given name; (2) otherwise, if OPENSEARCH_CLUSTERS is set and
`JSON.parse` succeeds on it, the parsed value is returned as the clusters
map unconditionally (even when it is empty); if the parse throws, a warning
is logged and control falls through; (3) otherwise the legacy branch. -/
def createConfigFromEnv (env : Env) : PartialConfig :=
  if jsTruthy env.clusterName && (jsTruthy env.url || jsTruthy env.node) then
    { clusters := [(env.clusterName.getD "", mkEnvCluster env)] }
  else
    match env.clustersJson with
    | some (some m) => { clusters := m }
    | some none => legacyClusters env
    | none => legacyClusters env

/-- Prefix of the error message thrown by `validateConfig` when both the
multi-cluster and the legacy zod parse fail. -/
def invalidConfigMsg : String := "Invalid OpenSearch configuration"

/-- Embeds `validateConfig` (src/types/config.ts lines 62-87) applied to a
`createConfigFromEnv` result.  Each candidate entry is paired with the
outcome of the external per-entry zod parse
(`OpenSearchClusterConfigSchema.parse`), modelled as a Bool oracle.  The
multi-cluster parse (`OpenSearchConfigSchema.parse`, a zod record of entry
schemas) succeeds exactly when every entry parses, in which case the whole
config is returned.  When any entry fails, the source falls back to parsing
the same object against the legacy single-cluster schema; that object has a
`clusters` key and no `node` key, so the legacy parse always fails too and
an `invalidConfigMsg` error is thrown.  No entry is ever dropped. -/
def validateConfig (entries : List (String × Bool)) :
    Except String (List (String × Bool)) :=
  if entries.all (fun e => e.2) then .ok entries else .error invalidConfigMsg

/-- The argument object of a CallTool request, with the optional fields the
claims inspect (absent fields are `none`; object-valued arguments such as
`aggregations` are carried opaquely as strings, only their presence
matters to the dispatch layer, which never inspects them). -/
structure CallArgs where
  cluster : Option String := none
  index : Option String := none
  aggregations : Option String := none
  query : Option String := none
  username : Option String := none
  password : Option String := none
deriving DecidableEq

/-- One observable interaction with the outside world performed while
serving a CallTool request: a liveness probe (`client.ping()` during
registry construction) or the invocation of a named method on the client
object resolved for a cluster. -/
inductive Effect where
  | probe (cluster : String)
  | backendCall (cluster : String) (method : String) (args : CallArgs)
deriving DecidableEq

/-- The `ErrorCode` values of the MCP SDK used by src/index.ts. -/
inductive ErrCode where
  | methodNotFound
  | invalidRequest
  | internalError
deriving DecidableEq

/-- An `McpError`: a stable code plus a message. -/
structure McpErr where
  code : ErrCode
  message : String
deriving DecidableEq

/-- Message thrown by `getClient` when no cluster at all is available. -/
def noClustersMsg : String :=
  "No clusters configured. Please configure at least one OpenSearch cluster."

/-- The message of the not-found error thrown by `getClient`: it names the
offending cluster and enumerates the currently registered cluster names,
comma separated, in construction order. -/
def clusterNotFoundMsg (target : String) (clients : List String) : String :=
  "Cluster \x27" ++ target ++ "\x27 not found. Available clusters: "
    ++ String.intercalate ", " clients

/-- Embeds `getClient` (src/index.ts lines 118-139).  The registry is the
list of surviving cluster names in construction (insertion) order; the
client handle stored under a name is identified with the name itself.
`clusterName || keys[0]` is JavaScript truthiness: an omitted or empty
cluster argument falls back to the first key.  The subsequent source check
`if (!targetCluster)` is again truthiness, so it raises the no-clusters
error both when the registry is empty (the fallback key is undefined) and
when the resolved target is the empty string.  Otherwise the target is
looked up in the map; a miss raises the enumerating not-found error. -/
def getClient (clients : List String) (clusterName : Option String) :
    Except McpErr String :=
  let target : Option String :=
    if jsTruthy clusterName then clusterName else clients.head?
  match target with
  | none => .error ⟨.invalidRequest, noClustersMsg⟩
  | some t =>
      if t == "" then .error ⟨.invalidRequest, noClustersMsg⟩
      else if clients.contains t then .ok t
      else .error ⟨.invalidRequest, clusterNotFoundMsg t clients⟩

/-- The message of the error raised when registry construction ends with no
surviving cluster, after the catch block of `initializeOpenSearch` wraps
the inner "Failed to connect to any OpenSearch cluster" Error into an
InternalError McpError.  This is the condition the specification labels
NoClustersAvailable. -/
def initFailedMsg : String :=
  "Failed to initialize OpenSearch: Failed to connect to any OpenSearch cluster"

/-- Embeds `initializeOpenSearch` (src/index.ts lines 74-113).  `clients`
is the current registry (the `opensearchClients` map as a list of names in
insertion order): when it is non-empty the method returns at once and
nothing is probed.  Otherwise every entry of the validated configuration
`cfg` is probed in declaration order (oracle `ping` gives each probe's
outcome); a failed probe logs a warning and skips the entry; survivors are
inserted in order.  If no cluster survives, the InternalError above is
raised.  The second component is the trace of probes performed. -/
def initializeOpenSearch (clients : List String) (cfg : List String)
    (ping : String → Bool) : Except McpErr (List String) × List Effect :=
  if clients.isEmpty then
    let survivors := cfg.filter ping
    if survivors.isEmpty then
      (.error ⟨.internalError, initFailedMsg⟩, cfg.map .probe)
    else
      (.ok survivors, cfg.map .probe)
  else
    (.ok clients, [])

/-- The static operation catalog together with the client method each
handler invokes, transcribed from the CallToolRequestSchema switch of
src/index.ts (lines 747-829) and the handler bodies it dispatches to:
`none` means the name is not in the catalog (the switch default throws
MethodNotFound), `some none` means the handler touches no client
(`handleListClusters`), and `some (some m)` means the handler resolves a
client via `getClient(args.cluster)` and invokes its method `m`. -/
def handlerMethod (name : String) : Option (Option String) :=
  match name with
  | "opensearch_list_clusters" => some none
  | "opensearch_search" => some (some "search")
  | "opensearch_aggregate" => some (some "aggregate")
  | "opensearch_count" => some (some "count")
  | "opensearch_index_document" => some (some "index")
  | "opensearch_bulk_index" => some (some "bulk")
  | "opensearch_get_document" => some (some "get")
  | "opensearch_update_document" => some (some "update")
  | "opensearch_delete_document" => some (some "delete")
  | "opensearch_list_indices" => some (some "catIndices")
  | "opensearch_create_index" => some (some "createIndex")
  | "opensearch_delete_index" => some (some "deleteIndex")
  | "opensearch_get_mapping" => some (some "getMapping")
  | "opensearch_put_mapping" => some (some "putMapping")
  | "opensearch_cluster_health" => some (some "clusterHealth")
  | "opensearch_cluster_stats" => some (some "clusterStats")
  | "opensearch_index_stats" => some (some "indexStats")
  | "opensearch_cluster_info" => some (some "info")
  | "opensearch_create_user" => some (some "createUser")
  | "opensearch_delete_user" => some (some "deleteUser")
  | "opensearch_get_user" => some (some "getUser")
  | "opensearch_list_users" => some (some "listUsers")
  | "opensearch_create_role" => some (some "createRole")
  | "opensearch_delete_role" => some (some "deleteRole")
  | "opensearch_get_role" => some (some "getRole")
  | "opensearch_list_roles" => some (some "listRoles")
  | "opensearch_map_role" => some (some "createRoleMapping")
  | "opensearch_get_role_mapping" => some (some "getRoleMapping")
  | "opensearch_list_role_mappings" => some (some "listRoleMappings")
  | _ => none

/-- The `required` arrays declared in the tool catalog of the
ListToolsRequestSchema handler (src/index.ts lines 152-745), transcribed
per operation name; operations whose inputSchema declares no `required`
key map to the empty list. -/
def requiredFields (name : String) : List String :=
  match name with
  | "opensearch_aggregate" => ["index", "aggregations"]
  | "opensearch_index_document" => ["index", "document"]
  | "opensearch_bulk_index" => ["operations"]
  | "opensearch_get_document" => ["index", "id"]
  | "opensearch_update_document" => ["index", "id"]
  | "opensearch_delete_document" => ["index", "id"]
  | "opensearch_create_index" => ["index"]
  | "opensearch_delete_index" => ["index"]
  | "opensearch_put_mapping" => ["index", "mappings"]
  | "opensearch_create_user" => ["username", "password"]
  | "opensearch_delete_user" => ["username"]
  | "opensearch_get_user" => ["username"]
  | "opensearch_create_role" => ["role_name", "permissions"]
  | "opensearch_delete_role" => ["role_name"]
  | "opensearch_get_role" => ["role_name"]
  | "opensearch_map_role" => ["role_name"]
  | "opensearch_get_role_mapping" => ["role_name"]
  | _ => []

/-- The methods actually defined on the `OpenSearchClient` class in
src/opensearch/client.ts (lines 30-502), in declaration order.  Note the
class defines no security-administration methods. -/
def clientMethods : List String :=
  ["ping", "info", "clusterHealth", "clusterStats", "search", "index",
   "bulk", "get", "delete", "update", "catIndices", "indexStats",
   "createIndex", "deleteIndex", "indexExists", "getMapping", "putMapping",
   "refresh", "count", "aggregate", "close"]

/-- Successful outcome of a CallTool request: either the cluster listing of
`handleListClusters`, or the (externally produced) response of the backend
method a handler invoked, identified by cluster, method and the argument
object that was forwarded to it. -/
inductive ToolResult where
  | clusterList (clusters : List String)
  | backend (cluster : String) (method : String) (args : CallArgs)
deriving DecidableEq

/-- Embeds the CallToolRequestSchema handler (src/index.ts lines 747-829)
together with the handler methods it dispatches to.  In source order: the
handler first awaits `initializeOpenSearch` (lazy registry construction,
including liveness probes, happens before the operation name is ever
examined), then re-checks that the registry is non-empty, then switches on
the operation name: an uncatalogued name throws MethodNotFound; every
catalogued handler except `handleListClusters` resolves a client with
`getClient(args.cluster)` and invokes one client method, forwarding its
argument fields without any validation against the declared inputSchema.
The second component is the trace of external interactions. -/
def handleCallTool (clients cfg : List String) (ping : String → Bool)
    (name : String) (args : CallArgs) :
    Except McpErr ToolResult × List Effect :=
  match initializeOpenSearch clients cfg ping with
  | (.error e, effs) => (.error e, effs)
  | (.ok live, effs) =>
      if live.isEmpty then
        (.error ⟨.internalError, "OpenSearch clients not initialized"⟩, effs)
      else
        match handlerMethod name with
        | none => (.error ⟨.methodNotFound, "Unknown tool: " ++ name⟩, effs)
        | some none => (.ok (.clusterList live), effs)
        | some (some m) =>
            match getClient live args.cluster with
            | .error e => (.error e, effs)
            | .ok c => (.ok (.backend c m args), effs ++ [.backendCall c m args])

/-- JavaScript `s.startsWith(pre)` on strings modelled as character
lists. -/
def jsStartsWith (s pre : List Char) : Bool :=
  pre.isPrefixOf s

/-- Embeds `OpenSearchClient.applyIndexPrefix` (src/opensearch/client.ts
lines 489-494), with JavaScript strings modelled as character lists: when
`config.indexPrefix` is truthy (present and non-empty) and the index does
not already start with it, the prefix is prepended; otherwise the index is
returned unchanged. -/
def applyIndexPrefix (indexPrefix : Option (List Char)) (index : List Char) :
    List Char :=
  match indexPrefix with
  | none => index
  | some p =>
      if !p.isEmpty && !(jsStartsWith index p) then p ++ index else index

/-- Splitting a list by a Boolean predicate preserves its length. -/
theorem length_filter_split {α : Type} (l : List α) (p : α → Bool) :
    (l.filter p).length + (l.filter (fun a => !p a)).length = l.length := by
  induction l with
  | nil => rfl
  | cons a t ih =>
      cases h : p a <;>
        simp [List.filter_cons, h, ← ih] <;> omega

/-- A list is a Boolean prefix of itself followed by anything. -/
theorem isPrefixOf_append_self (p s : List Char) :
    p.isPrefixOf (p ++ s) = true := by
  rw [List.isPrefixOf_iff_prefix]
  exact List.prefix_append p s

/-- C1: the specification and the repository documentation promise that a
request with no cluster name resolves to the configured default cluster
when it is live (OPENSEARCH_DEFAULT_CLUSTER in the documentation); the
code never reads any default-cluster setting, and `getClient` with no name
always takes the first key of the map.  With survivors ["alpha", "beta"]
in construction order and "beta" as the documented default, resolution
returns "alpha", which is not "beta". -/
theorem resolve_no_name_ignores_default_c1 :
    getClient ["alpha", "beta"] none = .ok "alpha" ∧
    ("alpha" : String) ≠ "beta" := by
  exact ⟨rfl, by decide⟩

/-- C2 counterexample: with an uninitialized registry and one configured,
reachable cluster, dispatching the uncatalogued name "not_a_tool" probes
the backend (lazy registry construction runs before the operation name is
examined), so the effect trace is not empty — the claim says no backend is
contacted and the registry is not touched. -/
theorem unknown_op_first_call_probes_c2 :
    handleCallTool [] ["prod"] (fun _ => true) "not_a_tool" {} =
      (.error ⟨.methodNotFound, "Unknown tool: " ++ "not_a_tool"⟩,
        [.probe "prod"]) := by
  rfl

/-- C2 (amended): once the registry is initialized and non-empty,
dispatching a name outside the static catalog returns the MethodNotFound
error and performs no external interaction at all. -/
theorem unknown_op_after_init_c2 (clients cfg : List String)
    (ping : String → Bool) (name : String) (args : CallArgs)
    (hinit : clients ≠ []) (hname : handlerMethod name = none) :
    handleCallTool clients cfg ping name args =
      (.error ⟨.methodNotFound, "Unknown tool: " ++ name⟩, []) := by
  cases clients with
  | nil => exact absurd rfl hinit
  | cons c cs =>
      simp [handleCallTool, initializeOpenSearch, hname]

/-- C2 witness: the amended theorem applied at a concrete initialized
registry and a concrete unknown name. -/
theorem unknown_op_after_init_c2_witness :
    handleCallTool ["east"] ["east"] (fun _ => true) "bogus_tool" {} =
      (.error ⟨.methodNotFound, "Unknown tool: " ++ "bogus_tool"⟩, []) :=
  unknown_op_after_init_c2 ["east"] ["east"] (fun _ => true) "bogus_tool" {}
    (by decide) rfl

/-- C3 counterexample: the catalog declares "index" and "aggregations" as
required for opensearch_aggregate, and the empty argument object carries
neither; yet on an initialized one-cluster registry dispatch resolves the
cluster and invokes the backend aggregate method with the missing fields
still absent — no InvalidArguments error is produced, and a backend call
does occur, contradicting the claim. -/
theorem missing_required_args_forwarded_c3 :
    requiredFields "opensearch_aggregate" = ["index", "aggregations"] ∧
    ({} : CallArgs).index = none ∧
    ({} : CallArgs).aggregations = none ∧
    handleCallTool ["prod"] [] (fun _ => true) "opensearch_aggregate" {} =
      (.ok (.backend "prod" "aggregate" {}),
        [.backendCall "prod" "aggregate" {}]) := by
  exact ⟨rfl, rfl, rfl, rfl⟩

/-- C3 (amended): the dispatch layer performs no validation of the argument
object against the declared inputSchema: on an initialized registry whose
first surviving cluster has a non-empty name (an empty first name would
instead trip the truthiness-based no-clusters check inside `getClient`),
every catalogued backend operation, given any argument object whose
cluster selector is not a non-empty string, resolves the first surviving
cluster and invokes the backend method with the argument object forwarded
as is, missing required fields included. -/
theorem known_op_no_validation_c3 (c : String) (rest cfg : List String)
    (ping : String → Bool) (name m : String) (args : CallArgs)
    (hm : handlerMethod name = some (some m))
    (hc : jsTruthy args.cluster = false)
    (hce : c ≠ "") :
    handleCallTool (c :: rest) cfg ping name args =
      (.ok (.backend c m args), [.backendCall c m args]) := by
  have hb : (c == "") = false := by
    simp [hce]
  simp [handleCallTool, initializeOpenSearch, hm, getClient, hc, hb]

/-- C3 witness: the amended theorem applied to opensearch_search on a
one-cluster registry with an empty argument object. -/
theorem known_op_no_validation_c3_witness :
    handleCallTool ["prod"] [] (fun _ => true) "opensearch_search" {} =
      (.ok (.backend "prod" "search" {}),
        [.backendCall "prod" "search" {}]) :=
  known_op_no_validation_c3 "prod" [] [] (fun _ => true)
    "opensearch_search" "search" {} rfl rfl (by decide)

/-- C4: registry construction from a cold start over a validated
configuration of N clusters of which exactly K fail their liveness probe:
when K < N construction succeeds and the registry holds exactly the
clusters whose probe succeeded (N − K of them, in declaration order, every
entry having been probed); when K = N construction fails with the
InternalError the specification labels NoClustersAvailable. -/
theorem registry_build_probe_tolerance_c4 (cfg : List String)
    (ping : String → Bool) :
    ((cfg.filter (fun n => !ping n)).length < cfg.length →
      initializeOpenSearch [] cfg ping =
        (.ok (cfg.filter ping), cfg.map .probe) ∧
      (cfg.filter ping).length
        = cfg.length - (cfg.filter (fun n => !ping n)).length) ∧
    ((cfg.filter (fun n => !ping n)).length = cfg.length →
      initializeOpenSearch [] cfg ping =
        (.error ⟨.internalError, initFailedMsg⟩, cfg.map .probe)) := by
  have hsplit := length_filter_split cfg ping
  constructor
  · intro hlt
    have hlen : (cfg.filter ping).length
        = cfg.length - (cfg.filter (fun n => !ping n)).length := by omega
    have hne : (cfg.filter ping).isEmpty = false := by
      rw [List.isEmpty_eq_false_iff_exists_mem]
      have : 0 < (cfg.filter ping).length := by omega
      exact List.exists_mem_of_length_pos this
    refine ⟨?_, hlen⟩
    simp [initializeOpenSearch, hne]
  · intro heq
    have hzero : (cfg.filter ping).length = 0 := by omega
    have hempty : (cfg.filter ping).isEmpty = true := by
      rw [List.isEmpty_iff_length_eq_zero]
      exact hzero
    simp [initializeOpenSearch, hempty]

/-- C4 witness: the theorem applied to the configuration ["east", "west"]
where only "east" answers its probe (K = 1 < N = 2, one survivor), and to
the configuration ["west"] where everything fails (K = N = 1, fatal). -/
theorem registry_build_probe_tolerance_c4_witness :
    initializeOpenSearch [] ["east", "west"] (fun n => n == "east") =
      (.ok ["east"], [.probe "east", .probe "west"]) ∧
    initializeOpenSearch [] ["west"] (fun n => n == "east") =
      (.error ⟨.internalError, initFailedMsg⟩, [.probe "west"]) :=
  ⟨((registry_build_probe_tolerance_c4 ["east", "west"]
        (fun n => n == "east")).1 (by decide)).1,
    (registry_build_probe_tolerance_c4 ["west"]
        (fun n => n == "east")).2 (by decide)⟩

/-- C5 counterexample: with no cluster name set, OPENSEARCH_URL set, and
OPENSEARCH_CLUSTERS set to a declaration that parses to the empty map
(the string "{}" — a source that yields no cluster definitions),
resolution returns the empty cluster map even though the lower-precedence
legacy source would have yielded a definition: an applying-but-empty bulk
source wins, so it is not true that the first source yielding any cluster
definitions wins. -/
theorem empty_bulk_beats_legacy_c5 :
    createConfigFromEnv
        { url := some "http://localhost:9200",
          clustersJson := some (some []) } =
      { clusters := [] } ∧
    legacyClusters
        { url := some "http://localhost:9200",
          clustersJson := some (some []) } =
      { clusters := [("default",
          mkEnvCluster
            { url := some "http://localhost:9200",
              clustersJson := some (some []) })] } := by
  exact ⟨rfl, rfl⟩

/-- C5 (amended): precedence goes by applicability rather than by yield:
whenever the named shorthand does not apply (rule 1 requires a truthy
cluster name together with a truthy endpoint) and OPENSEARCH_CLUSTERS is
set and parses, the result is exactly the parsed bulk map — the legacy
fields are ignored — even when that map is empty. -/
theorem bulk_precedence_c5 (env : Env) (m : List (String × RawCluster))
    (h1 : (jsTruthy env.clusterName
        && (jsTruthy env.url || jsTruthy env.node)) = false)
    (h2 : env.clustersJson = some (some m)) :
    createConfigFromEnv env = { clusters := m } := by
  simp [createConfigFromEnv, h1, h2]

/-- C5 witness: both a parseable bulk declaration and legacy shorthand
fields are present; the result is exactly the bulk map. -/
theorem bulk_precedence_c5_witness :
    createConfigFromEnv
        { url := some "http://legacy:9200",
          clustersJson := some (some
            [("prodcluster", { node := some "https://prod:9200" })]) } =
      { clusters := [("prodcluster", { node := some "https://prod:9200" })] } :=
  bulk_precedence_c5
    { url := some "http://legacy:9200",
      clustersJson := some (some
        [("prodcluster", { node := some "https://prod:9200" })]) }
    [("prodcluster", { node := some "https://prod:9200" })] (by decide) rfl

/-- C6 counterexample: a resolved candidate configuration with one entry
passing the per-entry schema check and one failing it: `validateConfig`
fails outright instead of dropping the failing entry and keeping the valid
one, contradicting the claimed per-entry dropping. -/
theorem invalid_entry_fails_resolution_c6 :
    validateConfig [("good", true), ("bad", false)]
        = .error invalidConfigMsg ∧
    (("good", true) : String × Bool).2 = true := by
  exact ⟨rfl, rfl⟩

/-- C6 (amended): validation of a resolved configuration is all-or-nothing:
if any candidate entry fails the ClusterConfig schema the whole resolution
fails (no entry is dropped individually, however many valid entries
remain), and resolution succeeds, keeping every entry, exactly when every
entry passes. -/
theorem validate_all_or_nothing_c6 (entries : List (String × Bool)) :
    ((∃ e ∈ entries, e.2 = false) →
      validateConfig entries = .error invalidConfigMsg) ∧
    ((∀ e ∈ entries, e.2 = true) →
      validateConfig entries = .ok entries) := by
  constructor
  · rintro ⟨e, he, hf⟩
    have hall : entries.all (fun e => e.2) = false := by
      rw [List.all_eq_false]
      exact ⟨e, he, by simp [hf]⟩
    simp [validateConfig, hall]
  · intro h
    have hall : entries.all (fun e => e.2) = true := by
      rw [List.all_eq_true]
      exact h
    simp [validateConfig, hall]

/-- C6 witness: the amended theorem applied to a two-entry configuration
with one invalid entry (failure) and to an all-valid configuration
(success). -/
theorem validate_all_or_nothing_c6_witness :
    validateConfig [("good", true), ("bad", false)]
        = .error invalidConfigMsg ∧
    validateConfig [("solo", true)] = .ok [("solo", true)] :=
  ⟨(validate_all_or_nothing_c6 [("good", true), ("bad", false)]).1
      ⟨("bad", false), by decide, rfl⟩,
    (validate_all_or_nothing_c6 [("solo", true)]).2 (by decide)⟩

/-- C7 counterexample: the empty string is a name not present among the
survivors, yet resolving it does not fail: JavaScript treats the empty
cluster argument as falsy, so `clusterName || keys[0]` falls back to the
first surviving cluster and the connection for "east" is returned instead
of a ClusterNotFound error. -/
theorem empty_name_resolves_first_c7 :
    getClient ["east"] (some "") = .ok "east" ∧ "" ∉ ["east"] := by
  exact ⟨rfl, by decide⟩

/-- C7 (amended): for every non-empty name not present among the surviving
clusters, resolution fails with the invalid-request error whose message
names the missing cluster and enumerates the currently available cluster
names; no connection is returned. -/
theorem resolve_absent_name_c7 (clients : List String) (name : String)
    (hne : name ≠ "") (habs : name ∉ clients) :
    getClient clients (some name) =
      .error ⟨.invalidRequest, clusterNotFoundMsg name clients⟩ := by
  have ht : jsTruthy (some name) = true := by
    simp [jsTruthy, hne]
  have hb : (name == "") = false := by
    simp [hne]
  have hc : clients.contains name = false := by
    simpa using habs
  simp [getClient, ht, hb, hc]
  exact habs

/-- C7 witness: the amended theorem applied to the scenario of the
specification: one survivor "east" and the absent name "west". -/
theorem resolve_absent_name_c7_witness :
    getClient ["east"] (some "west") =
      .error ⟨.invalidRequest, clusterNotFoundMsg "west" ["east"]⟩ :=
  resolve_absent_name_c7 ["east"] "west" (by decide) (by decide)

/-- C8: when the named shorthand does not apply and OPENSEARCH_CLUSTERS is
set but `JSON.parse` throws on it, resolution treats the bulk source as
absent and returns exactly the legacy single-cluster result; the parse
failure is caught inside `createConfigFromEnv` (a logged warning), so a
malformed bulk declaration never makes resolution fail.  The warning log
itself is I/O outside this functional model. -/
theorem malformed_bulk_falls_through_c8 (env : Env)
    (h1 : (jsTruthy env.clusterName
        && (jsTruthy env.url || jsTruthy env.node)) = false)
    (h2 : env.clustersJson = some none) :
    createConfigFromEnv env = legacyClusters env := by
  simp [createConfigFromEnv, h1, h2]

/-- C8 witness: with a malformed bulk declaration and legacy endpoint
fields set, resolution yields the legacy one-entry "default" map. -/
theorem malformed_bulk_falls_through_c8_witness :
    createConfigFromEnv
        { url := some "http://localhost:9200", clustersJson := some none } =
      legacyClusters
        { url := some "http://localhost:9200", clustersJson := some none } :=
  malformed_bulk_falls_through_c8
    { url := some "http://localhost:9200", clustersJson := some none }
    (by decide) rfl

/-- C9: the catalog's security operation opensearch_create_user dispatches
to the client method name "createUser" (handleCreateUser calls
`client.createUser(...)`), but the `OpenSearchClient` class of
src/opensearch/client.ts defines no such method — nor any of the other
ten security client methods the security handlers invoke — so the claim
that every catalogued operation has a matching backend method fails; at
runtime the call raises a TypeError that surfaces as an InternalError
instead of a backend result. -/
theorem security_methods_missing_c9 :
    handlerMethod "opensearch_create_user" = some (some "createUser") ∧
    clientMethods.contains "createUser" = false ∧
    (["createUser", "deleteUser", "getUser", "listUsers", "createRole",
      "deleteRole", "getRole", "listRoles", "createRoleMapping",
      "getRoleMapping", "listRoleMappings"].all
        (fun m => !(clientMethods.contains m))) = true := by
  exact ⟨rfl, rfl, rfl⟩

/-- C10: for every configured non-empty index prefix, applying the prefix
transformation is idempotent — a second application leaves the result of
the first unchanged — and the result of one application always starts with
the prefix. -/
theorem applyIndexPrefix_idempotent_c10 (p s : List Char) (hp : p ≠ []) :
    applyIndexPrefix (some p) (applyIndexPrefix (some p) s)
        = applyIndexPrefix (some p) s ∧
    jsStartsWith (applyIndexPrefix (some p) s) p = true := by
  have hne : p.isEmpty = false := by
    simpa [List.isEmpty_iff] using hp
  cases h : jsStartsWith s p with
  | true =>
      constructor
      · simp [applyIndexPrefix, hne, h]
      · simp [applyIndexPrefix, hne, h]
  | false =>
      have hpre : jsStartsWith (p ++ s) p = true :=
        isPrefixOf_append_self p s
      constructor
      · simp [applyIndexPrefix, hne, h, hpre]
      · simpa [applyIndexPrefix, hne, h] using hpre

/-- C10 witness: the theorem applied to the prefix "logs-" and the index
name "app". -/
theorem applyIndexPrefix_idempotent_c10_witness :
    applyIndexPrefix (some ['l', 'o', 'g', 's', '-'])
        (applyIndexPrefix (some ['l', 'o', 'g', 's', '-'])
          ['a', 'p', 'p'])
        = applyIndexPrefix (some ['l', 'o', 'g', 's', '-'])
          ['a', 'p', 'p'] ∧
    jsStartsWith
        (applyIndexPrefix (some ['l', 'o', 'g', 's', '-'])
          ['a', 'p', 'p'])
        ['l', 'o', 'g', 's', '-'] = true :=
  applyIndexPrefix_idempotent_c10 ['l', 'o', 'g', 's', '-']
    ['a', 'p', 'p'] (by decide)
